import Mathlib

set_option maxHeartbeats 1000000

/-!
Shallow embedding of the Hermes2D discrete-problem assembly engine
(src/hermes2d/src/discrete_problem.cpp) and proofs about its behaviour.

Scalars are modelled as rationals; the user-supplied weak-form evaluation
callables are abstracted as functions of the shape-function indices, which is
all the assembly engine ever observes about them.
-/

/-- The magnitude threshold 1e-12 used throughout DiscreteProblem to decide
whether a scaling factor, a block weight or an assembly-list coefficient is
negligible. -/
def negligible : ℚ := 1 / 1000000000000

/-! ### Neighbor-count consistency check (assemble_one_DG_state) -/

/-- One pass of the `num_neighbors` consistency loop of
`DiscreteProblem::assemble_one_DG_state` (discrete_problem.cpp:1757-1768),
taking the list of `n_neighbors` values of the present NeighborSearches after
`update_neighbor_search` has run on each of them.  The accumulator starts at
0; for each present search, if the accumulator is still 0 it is set to that
search's count, and afterwards a count differing from the accumulator raises
the fatal error. -/
def checkNeighborCountsAux : Nat → List Nat → Except String Nat
  | num, [] => Except.ok num
  | num, c :: rest =>
    let num2 := if num = 0 then c else num
    if c ≠ num2 then
      Except.error "Num_neighbors of different NeighborSearches not matching in DiscreteProblem<Scalar>::assemble_surface_integrals()."
    else checkNeighborCountsAux num2 rest

/-- The neighbor-count consistency check over all present NeighborSearches,
started with `num_neighbors = 0` as in the source. -/
def checkNeighborCounts (counts : List Nat) : Except String Nat :=
  checkNeighborCountsAux 0 counts

/-- True when the check aborted assembly with the fatal error. -/
def neighborCountsMismatch (counts : List Nat) : Bool :=
  match checkNeighborCounts counts with
  | Except.error _ => true
  | Except.ok _ => false

/-! ### Structural cache: is_up_to_date / create_sparse_structure -/

/-- The cached structural state of a DiscreteProblem: the `have_matrix` flag,
the per-space cached sequence numbers `sp_seq` and the cached weak-form
sequence number `wf_seq`. -/
structure DPCache where
  have_matrix : Bool
  sp_seq : List Int
  wf_seq : Int
deriving DecidableEq

/-- The externally owned state the cache is compared against: each space's
current sequence number (`Space::get_seq`, external collaborator) and the weak
form's sequence number.  The number of equations equals the number of
spaces. -/
structure ProblemConfig where
  space_seqs : List Int
  wf_seq : Int
deriving DecidableEq

/-- Sequence-number lookup; -1 mirrors the `memset(sp_seq, -1, ...)`
initialisation of the cache in `DiscreteProblem::init`. -/
def seqAt (l : List Int) (i : Nat) : Int := l.getD i (-1)

/-- DiscreteProblem::is_up_to_date (discrete_problem.cpp:169-191): the matrix
structure is reusable iff `have_matrix` holds, every space's current sequence
number equals the cached one, and the weak form's sequence number equals the
cached one. -/
def is_up_to_date (c : DPCache) (p : ProblemConfig) : Bool :=
  c.have_matrix
    && ((List.range p.space_seqs.length).all fun i =>
          seqAt p.space_seqs i == seqAt c.sp_seq i)
    && (p.wf_seq == c.wf_seq)

/-- A region-marker designator attached to a form (`areas`): the HERMES_ANY
sentinel, the two DG sentinels, or a named marker. -/
inductive Area
  | any
  | dgInnerEdge
  | dgBoundaryEdge
  | named (m : Nat)
deriving DecidableEq

/-- The surface-form area data of a weak form: for each matrix surface form
and each vector surface form, its `areas` vector. -/
structure WFSurfData where
  mfsurf : List (List Area)
  vfsurf : List (List Area)

/-- The DG detection of `create_sparse_structure`
(discrete_problem.cpp:426-442): the weak form is a DG one iff some matrix or
vector surface form's first area is H2D_DG_INNER_EDGE. -/
def wf_is_DG (w : WFSurfData) : Bool :=
  w.mfsurf.any (fun a => a.headD Area.any == Area.dgInnerEdge)
    || w.vfsurf.any (fun a => a.headD Area.any == Area.dgInnerEdge)

/-- An operation performed on the external sparse matrix or vector during
structure creation. -/
inductive MatOp
  | zero
  | free
  | prealloc
  | alloc
deriving DecidableEq

/-- Whether `create_sparse_structure` reused the existing sparse structure or
rebuilt it from scratch. -/
inductive StructAction
  | reuse
  | rebuild
deriving DecidableEq

/-- The structural outcome of one `create_sparse_structure` call: the new
cache, the (possibly renumbered) external configuration, what happened to the
matrix structure, the new `spaces_first_dofs`, whether `Space::assign_dofs`
was invoked on the spaces, and the operations performed on the matrix and the
rhs. -/
structure CSSResult where
  cache : DPCache
  config : ProblemConfig
  action : StructAction
  first_dofs : List Nat
  assign_dofs_called : Bool
  mat_ops : List MatOp
  rhs_ops : List MatOp

/-- DiscreteProblem::create_sparse_structure (discrete_problem.cpp:400-600),
structural effects only.  If the cache is up to date the matrix is merely
zeroed (and the rhs zeroed, or allocated when it is still empty) and nothing
else changes.  Otherwise, when a matrix is present it is freed, preallocated
and reallocated; if the weak form has DG inner-edge surface forms, every entry
of `spaces_first_dofs` is reset to 0 and `Space::assign_dofs` is called on all
spaces (its effect on the spaces' sequence numbers is the parameter
`assignDofsSeqs`, since Space is an external collaborator).  Finally the
current space and weak-form sequence numbers are saved into the cache. -/
def create_sparse_structure (c : DPCache) (p : ProblemConfig)
    (mat_present rhs_present rhs_nonempty : Bool) (w : WFSurfData)
    (first_dofs : List Nat) (assignDofsSeqs : List Int → List Int) : CSSResult :=
  if is_up_to_date c p then
    { cache := c
      config := p
      action := StructAction.reuse
      first_dofs := first_dofs
      assign_dofs_called := false
      mat_ops := if mat_present then [MatOp.zero] else []
      rhs_ops := if rhs_present then (if rhs_nonempty then [MatOp.zero] else [MatOp.alloc]) else [] }
  else
    if mat_present then
      if wf_is_DG w then
        let p1 : ProblemConfig := { p with space_seqs := assignDofsSeqs p.space_seqs }
        { cache := { have_matrix := true, sp_seq := p1.space_seqs, wf_seq := p1.wf_seq }
          config := p1
          action := StructAction.rebuild
          first_dofs := List.replicate first_dofs.length 0
          assign_dofs_called := true
          mat_ops := [MatOp.free, MatOp.prealloc, MatOp.alloc]
          rhs_ops := if rhs_present then [MatOp.alloc] else [] }
      else
        { cache := { have_matrix := true, sp_seq := p.space_seqs, wf_seq := p.wf_seq }
          config := p
          action := StructAction.rebuild
          first_dofs := first_dofs
          assign_dofs_called := false
          mat_ops := [MatOp.free, MatOp.prealloc, MatOp.alloc]
          rhs_ops := if rhs_present then [MatOp.alloc] else [] }
    else
      { cache := { have_matrix := c.have_matrix, sp_seq := p.space_seqs, wf_seq := p.wf_seq }
        config := p
        action := StructAction.rebuild
        first_dofs := first_dofs
        assign_dofs_called := false
        mat_ops := []
        rhs_ops := if rhs_present then [MatOp.alloc] else [] }

/-- The data of a thrown Hermes::Exceptions::LengthException: parameter index,
actual length, expected length. -/
structure LengthExceptionData where
  param : Nat
  got : Nat
  expected : Nat
deriving DecidableEq

/-- The entry of DiscreteProblem::assemble (discrete_problem.cpp:855-874),
structural part: the block-weight dimension check runs first and throws a
LengthException before `create_sparse_structure` is reached; on the error path
no matrix or rhs operation has been performed (the error result carries no
CSSResult and hence no operation list). -/
def assembleStructural (c : DPCache) (p : ProblemConfig)
    (mat_present rhs_present rhs_nonempty : Bool) (w : WFSurfData)
    (first_dofs : List Nat) (assignDofsSeqs : List Int → List Int)
    (neq : Nat) (block_weights_size : Option Nat) :
    Except LengthExceptionData CSSResult :=
  match block_weights_size with
  | some s =>
    if s ≠ neq then Except.error { param := 6, got := s, expected := neq }
    else Except.ok (create_sparse_structure c p mat_present rhs_present rhs_nonempty w
      first_dofs assignDofsSeqs)
  | none => Except.ok (create_sparse_structure c p mat_present rhs_present rhs_nonempty w
      first_dofs assignDofsSeqs)

/-- DiscreteProblem::init sanity checks (discrete_problem.cpp:85-92): the
number of spaces must equal the weak form's number of equations and must be
nonzero. -/
def initSpaceCheck (nSpaces neq : Nat) : Except String Unit :=
  if nSpaces ≠ neq then Except.error "Bad number of spaces in DiscreteProblem."
  else if nSpaces = 0 then Except.error "Zero number of spaces in DiscreteProblem."
  else Except.ok ()

/-! ### Local stiffness-matrix assembly (assemble_matrix_form) -/

/-- One entry of an assembly list (`AsmList`): the global DOF index (negative
means a constrained, non-free DOF) and the constraint coefficient. -/
structure ALItem where
  dof : Int
  coef : ℚ
deriving DecidableEq

/-- Assembly-list DOF lookup (`al->dof[k]`). -/
def alDof (al : List ALItem) (k : Nat) : Int := (al.getD k { dof := -1, coef := 0 }).dof

/-- Assembly-list coefficient lookup (`al->coef[k]`). -/
def alCoef (al : List ALItem) (k : Nat) : ℚ := (al.getD k { dof := -1, coef := 0 }).coef

/-- The data of one matrix form the assembly engine reads: test-space index
`i`, trial-space index `j`, symmetry tag `sym` (0 unsymmetric, 1 symmetric,
-1 antisymmetric), scaling factor, and the declared region markers. -/
structure MatrixFormData where
  i : Nat
  j : Nat
  sym : Int
  scaling_factor : ℚ
  areas : List Area
deriving DecidableEq

/-- The data of one vector form: test-space index `i`, scaling factor and the
declared region markers. -/
structure VectorFormData where
  i : Nat
  scaling_factor : ℚ
  areas : List Area
deriving DecidableEq

/-- DiscreteProblem::block_scaling_coeff (discrete_problem.cpp:205-211): the
block weight `A(i, j)` when a block-weight table is supplied, 1 otherwise. -/
def block_scaling_coeff (bw : Option (Nat → Nat → ℚ)) (f : MatrixFormData) : ℚ :=
  match bw with
  | some A => A f.i f.j
  | none => 1

/-- A write into the dense local stiffness matrix: `single r c v` models
`local_stiffness_matrix[r][c] = v` and `pair r c v` models the mirrored
assignment `local_stiffness_matrix[r][c] = local_stiffness_matrix[c][r] = v`
of the symmetric branch. -/
inductive WriteOp
  | single (r c : Nat) (v : ℚ)
  | pair (r c : Nat) (v : ℚ)
deriving DecidableEq

/-- Applies one write to a dense matrix represented as a function. -/
def applyWrite (M : Nat → Nat → ℚ) : WriteOp → (Nat → Nat → ℚ)
  | WriteOp.single r c v => fun p q => if p = r ∧ q = c then v else M p q
  | WriteOp.pair r c v => fun p q => if (p = r ∧ q = c) ∨ (p = c ∧ q = r) then v else M p q

/-- Applies a list of writes, in order, to a dense matrix. -/
def applyWrites (ws : List WriteOp) (M : Nat → Nat → ℚ) : Nat → Nat → ℚ :=
  ws.foldl applyWrite M

/-- The row filter of the assembly loop of DiscreteProblem::assemble_matrix_form
(discrete_problem.cpp:1377-1385): rows whose DOF is constrained or whose
assembly-list coefficient is negligible are skipped (the middle test of the
source is a redundant repetition of the first and is reproduced as such). -/
def matrixRowAccepted (tra surface : Bool) (ali : List ALItem) (i : Nat) : Bool :=
  if alDof ali i < 0 then false
  else if ((!tra || surface) && alDof ali i < 0) then false
  else if |alCoef ali i| < negligible then false
  else true

/-- One inner-loop step of the unsymmetric branch of
DiscreteProblem::assemble_matrix_form (discrete_problem.cpp:1388-1404):
columns with constrained DOFs or negligible coefficients produce nothing; a
surface form's entry carries the fixed 0.5 factor (line 1400) and a volume
form's entry does not (line 1402). -/
def nonSymWriteAt (surface : Bool) (f : MatrixFormData) (bw : Option (Nat → Nat → ℚ))
    (value : Nat → Nat → ℚ) (ali alj : List ALItem) (i j : Nat) : Option WriteOp :=
  if alDof alj j ≥ 0 then
    if |alCoef alj j| < negligible then none
    else if surface then
      some (WriteOp.single i j
        (1/2 * block_scaling_coeff bw f * value i j * f.scaling_factor
          * alCoef alj j * alCoef ali i))
    else
      some (WriteOp.single i j
        (block_scaling_coeff bw f * value i j * f.scaling_factor
          * alCoef alj j * alCoef ali i))
  else none

/-- One inner-loop step of the symmetric branch of
DiscreteProblem::assemble_matrix_form (discrete_problem.cpp:1409-1426):
columns `j < i` with a free DOF are skipped (only the diagonal/upper
triangle of pairs is evaluated), and the value of line 1422 — which carries
no 0.5 factor — is written to both transposed positions, mirroring
`local_stiffness_matrix[i][j] = local_stiffness_matrix[j][i] = val`. -/
def symWriteAt (f : MatrixFormData) (bw : Option (Nat → Nat → ℚ))
    (value : Nat → Nat → ℚ) (ali alj : List ALItem) (i j : Nat) : Option WriteOp :=
  if j < i ∧ alDof alj j ≥ 0 then none
  else if alDof alj j ≥ 0 then
    if |alCoef alj j| < negligible then none
    else
      some (WriteOp.pair i j
        (block_scaling_coeff bw f * value i j * f.scaling_factor
          * alCoef alj j * alCoef ali i))
  else none

/-- The writes performed into the local stiffness matrix by
DiscreteProblem::assemble_matrix_form (discrete_problem.cpp:1376-1428), in
loop order.  `value i j` abstracts the user callable
`form->value(n, jac_x_wt, u_ext, base_fns[j], test_fns[i], geometry, ext)`
for test index `i` and trial index `j`.  The symmetric branch is taken for
forms with `i == j` and `sym == 1`; all other forms go through the
unsymmetric branch. -/
def matrixFormWrites (surface : Bool) (f : MatrixFormData) (bw : Option (Nat → Nat → ℚ))
    (value : Nat → Nat → ℚ) (als : Nat → List ALItem) : List WriteOp :=
  let ali := als f.i
  let alj := als f.j
  let tra : Bool := f.i ≠ f.j && f.sym ≠ 0
  let symB : Bool := f.i = f.j && f.sym = 1
  (List.range ali.length).flatMap fun i =>
    if !matrixRowAccepted tra surface ali i then []
    else if !symB then
      (List.range alj.length).filterMap (nonSymWriteAt surface f bw value ali alj i)
    else
      (List.range alj.length).filterMap (symWriteAt f bw value ali alj i)

/-- Modelled from the spec: the dense local block starts as the zero block
(`new_matrix` of hermes_common, not under src/; spec section 4.4 accumulates
each contribution "into a dense local block"). -/
def zeroBlock : Nat → Nat → ℚ := fun _ _ => 0

/-- The local stiffness matrix produced by assemble_matrix_form at the moment
it is inserted into the global matrix. -/
def localStiffnessMatrix (surface : Bool) (f : MatrixFormData) (bw : Option (Nat → Nat → ℚ))
    (value : Nat → Nat → ℚ) (als : Nat → List ALItem) : Nat → Nat → ℚ :=
  applyWrites (matrixFormWrites surface f bw value als) zeroBlock

/-- Modelled from the spec: sign change of the local block
(`chsgn` of hermes_common DenseMatrixOperations, not under src/; spec:
"the transposed, sign-flipped block is written as a second accumulation
call"). -/
def chsgnBlock (M : Nat → Nat → ℚ) : Nat → Nat → ℚ := fun p q => -(M p q)

/-- Modelled from the spec: transposition of the local block
(`transpose` of hermes_common DenseMatrixOperations, not under src/). -/
def transposeBlock (M : Nat → Nat → ℚ) : Nat → Nat → ℚ := fun p q => M q p

/-- One accumulation call `current_mat->add(rowCnt, colCnt, M, rows, cols)`
into the global sparse matrix. -/
structure AddCall where
  rowCnt : Nat
  colCnt : Nat
  rows : List Int
  cols : List Int
  mat : Nat → Nat → ℚ

/-- DiscreteProblem::assemble_matrix_form (discrete_problem.cpp:1344-1450):
the sequence of global accumulation calls it performs.  The local block is
always added at `(als[i], als[j])`; when the form is off-diagonal with a
nonzero symmetry tag (`tra`), the block is sign-flipped for antisymmetric
forms, transposed, and added a second time at `(als[j], als[i])`. -/
def assembleMatrixForm (surface : Bool) (f : MatrixFormData) (bw : Option (Nat → Nat → ℚ))
    (value : Nat → Nat → ℚ) (als : Nat → List ALItem) : List AddCall :=
  let ali := als f.i
  let alj := als f.j
  let M := localStiffnessMatrix surface f bw value als
  let first : AddCall :=
    { rowCnt := ali.length, colCnt := alj.length
      rows := ali.map ALItem.dof, cols := alj.map ALItem.dof, mat := M }
  let tra : Bool := f.i ≠ f.j && f.sym ≠ 0
  if tra then
    let M1 := if f.sym < 0 then chsgnBlock M else M
    let M2 := transposeBlock M1
    [first,
      { rowCnt := alj.length, colCnt := ali.length
        rows := alj.map ALItem.dof, cols := ali.map ALItem.dof, mat := M2 }]
  else [first]

/-! ### Vector-form assembly (assemble_vector_form) -/

/-- DiscreteProblem::assemble_vector_form (discrete_problem.cpp:1497-1548):
the sequence of `current_rhs->add(dof, val)` calls.  `value i` abstracts
`form->value(n, jac_x_wt, u_ext, test_fns[i], geometry, ext)`.  A surface
form's value carries the fixed 0.5 factor (line 1536), a volume form's does
not (line 1538). -/
def vectorFormAddCalls (surface : Bool) (f : VectorFormData) (value : Nat → ℚ)
    (al : List ALItem) : List (Int × ℚ) :=
  (List.range al.length).filterMap fun i =>
    if alDof al i < 0 then none
    else if |alCoef al i| < negligible then none
    else if surface then
      some (alDof al i, 1/2 * value i * f.scaling_factor * alCoef al i)
    else
      some (alDof al i, value i * f.scaling_factor * alCoef al i)

/-! ### DG local assembly (assemble_DG_one_neighbor) -/

/-- The local-matrix loop of DiscreteProblem::assemble_DG_one_neighbor
(discrete_problem.cpp:1947-2005).  The extended shapesets (union of central
and neighbor shape functions restricted to the sub-edge) are given as merged
assembly lists `extU`, `extV` of (dof, coef) pairs, the coefficient being the
supporting side's assembly-list coefficient as selected by the source's
`support_neigh` ternaries; `value i j` abstracts
`mfs->value(np, jac_x_wt, prev, u, v, e, ext)` for test index `i` and trial
index `j`.  Every entry carries the fixed 0.5 factor (line 2000). -/
def dgMatrixWrites (f : MatrixFormData) (bw : Option (Nat → Nat → ℚ))
    (value : Nat → Nat → ℚ) (extU extV : List ALItem) : List WriteOp :=
  (List.range extV.length).flatMap fun i =>
    if alDof extV i < 0 then []
    else (List.range extU.length).filterMap fun j =>
      if alDof extU j ≥ 0 then
        some (WriteOp.single i j
          (block_scaling_coeff bw f * (1/2) * (value i j * f.scaling_factor)
            * alCoef extU j * alCoef extV i))
      else none

/-- The DG vector-form loop of DiscreteProblem::assemble_DG_one_neighbor
(discrete_problem.cpp:2049-2116): one `current_rhs->add` per free central DOF,
each value carrying the fixed 0.5 factor (line 2113). -/
def dgVectorAddCalls (f : VectorFormData) (value : Nat → ℚ)
    (al : List ALItem) : List (Int × ℚ) :=
  (List.range al.length).filterMap fun i =>
    if alDof al i < 0 then none
    else some (alDof al i, 1/2 * value i * f.scaling_factor * alCoef al i)

/-! ### Form applicability (form_to_be_assembled) -/

/-- The per-state element presence and markers the applicability predicates
read: `present i` is `current_state->e[i] != NULL`, `repMarker` is
`current_state->rep->marker`, and `edgeMarker` is
`current_state->rep->en[current_state->isurf]->marker` for the active edge. -/
structure TravState where
  present : Nat → Bool
  repMarker : Nat
  edgeMarker : Nat

/-- One mesh's marker-conversion table (`MarkersConversion`): whether a named
user marker is known, and its internal marker id. -/
structure MarkerTable where
  valid : Nat → Bool
  marker : Nat → Nat

/-- The per-space mesh data read by the applicability predicates: the element
and boundary marker-conversion tables of the space's mesh. -/
structure SpaceData where
  elemMarkers : MarkerTable
  bndMarkers : MarkerTable

/-- DiscreteProblem::form_to_be_assembled(MatrixForm*, State*)
(discrete_problem.cpp:213-227): the form is skipped when either endpoint
field's element is absent in the state, when its scaling factor is
negligible, or when a block-weight table is supplied and the corresponding
block weight is negligible. -/
def matrixFormToBeAssembled (bw : Option (Nat → Nat → ℚ)) (f : MatrixFormData)
    (st : TravState) : Bool :=
  if !st.present f.i || !st.present f.j then false
  else if |f.scaling_factor| < negligible then false
  else
    match bw with
    | some A => if |A f.i f.j| < negligible then false else true
    | none => true

/-- DiscreteProblem::form_to_be_assembled(VectorForm*, State*)
(discrete_problem.cpp:308-317). -/
def vectorFormToBeAssembled (f : VectorFormData) (st : TravState) : Bool :=
  if !st.present f.i then false
  else if |f.scaling_factor| < negligible then false
  else true

/-- The element-marker test of the volume applicability predicates
(discrete_problem.cpp:238-261): HERMES_ANY always matches; a named marker
matches when the space's mesh knows it and its internal id equals the
representative element's marker. -/
def areaMatchesElem (sp : SpaceData) (st : TravState) (a : Area) : Bool :=
  match a with
  | Area.named s => sp.elemMarkers.valid s && (sp.elemMarkers.marker s == st.repMarker)
  | _ => false

/-- The boundary-marker test of the surface applicability predicates
(discrete_problem.cpp:279-302). -/
def areaMatchesBnd (sp : SpaceData) (st : TravState) (a : Area) : Bool :=
  match a with
  | Area.named s => sp.bndMarkers.valid s && (sp.bndMarkers.marker s == st.edgeMarker)
  | _ => false

/-- DiscreteProblem::form_to_be_assembled(MatrixFormVol*, State*)
(discrete_problem.cpp:229-265). -/
def matrixFormVolToBeAssembled (bw : Option (Nat → Nat → ℚ)) (spaces : Nat → SpaceData)
    (f : MatrixFormData) (st : TravState) : Bool :=
  matrixFormToBeAssembled bw f st
    && f.areas.any fun a =>
      a == Area.any
        || (areaMatchesElem (spaces f.i) st a && areaMatchesElem (spaces f.j) st a)

/-- DiscreteProblem::form_to_be_assembled(MatrixFormSurf*, State*)
(discrete_problem.cpp:267-306): interior (marker 0) edges and DG inner-edge
forms are rejected first, then the base predicate and the boundary-marker
matching run. -/
def matrixFormSurfToBeAssembled (bw : Option (Nat → Nat → ℚ)) (spaces : Nat → SpaceData)
    (f : MatrixFormData) (st : TravState) : Bool :=
  if st.edgeMarker == 0 then false
  else if f.areas.headD Area.any == Area.dgInnerEdge then false
  else
    matrixFormToBeAssembled bw f st
      && f.areas.any fun a =>
        a == Area.any || a == Area.dgBoundaryEdge
          || (areaMatchesBnd (spaces f.i) st a && areaMatchesBnd (spaces f.j) st a)

/-- DiscreteProblem::form_to_be_assembled(VectorFormVol*, State*)
(discrete_problem.cpp:319-351). -/
def vectorFormVolToBeAssembled (spaces : Nat → SpaceData) (f : VectorFormData)
    (st : TravState) : Bool :=
  vectorFormToBeAssembled f st
    && f.areas.any fun a =>
      a == Area.any || areaMatchesElem (spaces f.i) st a

/-- DiscreteProblem::form_to_be_assembled(VectorFormSurf*, State*)
(discrete_problem.cpp:353-389). -/
def vectorFormSurfToBeAssembled (spaces : Nat → SpaceData) (f : VectorFormData)
    (st : TravState) : Bool :=
  if st.edgeMarker == 0 then false
  else if f.areas.headD Area.any == Area.dgInnerEdge then false
  else
    vectorFormToBeAssembled f st
      && f.areas.any fun a =>
        a == Area.any || a == Area.dgBoundaryEdge || areaMatchesBnd (spaces f.i) st a

/-- The contribution of one volume matrix form to the global matrix within
assemble_one_state (discrete_problem.cpp:1085-1138): nothing when the
applicability predicate rejects the form. -/
def matrixVolContribution (bw : Option (Nat → Nat → ℚ)) (spaces : Nat → SpaceData)
    (f : MatrixFormData) (st : TravState) (value : Nat → Nat → ℚ)
    (als : Nat → List ALItem) : List AddCall :=
  if matrixFormVolToBeAssembled bw spaces f st then assembleMatrixForm false f bw value als
  else []

/-- The contribution of one surface matrix form within assemble_one_state
(discrete_problem.cpp:1187-1244). -/
def matrixSurfContribution (bw : Option (Nat → Nat → ℚ)) (spaces : Nat → SpaceData)
    (f : MatrixFormData) (st : TravState) (value : Nat → Nat → ℚ)
    (als : Nat → List ALItem) : List AddCall :=
  if matrixFormSurfToBeAssembled bw spaces f st then assembleMatrixForm true f bw value als
  else []

/-- The contribution of one volume vector form within assemble_one_state
(discrete_problem.cpp:1142-1175). -/
def vectorVolContribution (spaces : Nat → SpaceData) (f : VectorFormData)
    (st : TravState) (value : Nat → ℚ) (al : List ALItem) : List (Int × ℚ) :=
  if vectorFormVolToBeAssembled spaces f st then vectorFormAddCalls false f value al
  else []

/-- The contribution of one surface vector form within assemble_one_state
(discrete_problem.cpp:1249-1282). -/
def vectorSurfContribution (spaces : Nat → SpaceData) (f : VectorFormData)
    (st : TravState) (value : Nat → ℚ) (al : List ALItem) : List (Int × ℚ) :=
  if vectorFormSurfToBeAssembled spaces f st then vectorFormAddCalls true f value al
  else []

/-! ### The parallel assembly region (assemble) -/

/-- The per-state loop of the parallel region of DiscreteProblem::assemble
(discrete_problem.cpp:954-993), in schedule order starting at state `i` with
`rem` states remaining.  `work s` is the outcome of the per-state body
(assemble_one_state plus the DG pass) for state `s`.  The loop body contains
no exception handler anywhere in the source, so the first raise leaves the
region at once; the result is the index of the first unprocessed state
together with the escaped error message, if any. -/
def assembleStatesAux (work : Nat → Except String Unit) : Nat → Nat → Nat × Option String
  | 0, i => (i, none)
  | Nat.succ rem, i =>
    match work i with
    | Except.ok _ => assembleStatesAux work rem (i + 1)
    | Except.error m => (i, some m)

/-- The whole parallel region over `num_states` traversal states: the number
of states processed before the region was left, and the error that escaped
from it, if any. -/
def assembleStates (num_states : Nat) (work : Nat → Except String Unit) :
    Nat × Option String :=
  assembleStatesAux work num_states 0

/-- Modelled from the spec: the capture-and-consolidate semantics the spec's
sections 5 and 7 describe for the parallel region (no such handler exists in
src/hermes2d/src/discrete_problem.cpp).  Every state's work runs to
completion, a raised message is only recorded, and the orchestrator rethrows
the first recorded message once all workers have finished. -/
def assembleStatesCaptured (num_states : Nat) (work : Nat → Except String Unit) :
    Nat × Option String :=
  (num_states,
    (List.range num_states).findSome? fun i =>
      match work i with
      | Except.error m => some m
      | Except.ok _ => none)

/-! ### Quadrature-order selection (calc_order_matrix_form / set_fvm) -/

/-- The DiscreteProblem flags relevant to order selection. -/
structure DPFlags where
  is_fvm : Bool

/-- DiscreteProblem::set_fvm (discrete_problem.cpp:199-203). -/
def set_fvm (s : DPFlags) : DPFlags := { s with is_fvm := true }

/-- DiscreteProblem::calc_order_matrix_form (discrete_problem.cpp:1287-1341):
the selected quadrature order together with the fact whether the form's
symbolic order estimator (`form->ord`) was invoked.  In the FVM branch the
order is the inverse reference-map order of the test space's reference
mapping (`current_refmaps[form->i]->get_inv_ref_order()`) and the estimator
is not called; otherwise the estimator's order `estimated` is increased by
the inverse reference-map order and clamped (adjust_order_to_refmaps with
limit_order; the clamp bound `maxOrder` is modelled from the spec:
"clamp to an implementation-defined maximum", quadrature/limit_order not
being under src/). -/
def calc_order_matrix_form (is_fvm : Bool) (invRefOrder : Nat → Nat)
    (f : MatrixFormData) (estimated : Nat) (maxOrder : Nat) : Nat × Bool :=
  if is_fvm then (invRefOrder f.i, false)
  else (min (invRefOrder f.i + estimated) maxOrder, true)

/-- DiscreteProblem::calc_order_vector_form (discrete_problem.cpp:1453-1494),
analogous to the matrix-form variant. -/
def calc_order_vector_form (is_fvm : Bool) (invRefOrder : Nat → Nat)
    (f : VectorFormData) (estimated : Nat) (maxOrder : Nat) : Nat × Bool :=
  if is_fvm then (invRefOrder f.i, false)
  else (min (invRefOrder f.i + estimated) maxOrder, true)

/-- Placeholder accumulation call used as the default of list lookups. -/
def dummyAddCall : AddCall :=
  { rowCnt := 0, colCnt := 0, rows := [], cols := [], mat := zeroBlock }

/-- Halves the value carried by a write into the local block. -/
def halveWrite : WriteOp → WriteOp
  | WriteOp.single r c v => WriteOp.single r c (1/2 * v)
  | WriteOp.pair r c v => WriteOp.pair r c (1/2 * v)

/-! ### Theorems -/

theorem checkNeighborCountsAux_ok_all_eq (l : List Nat) :
    ∀ num m : Nat, num ≠ 0 → checkNeighborCountsAux num l = Except.ok m →
      ∀ c ∈ l, c = num := by
  induction l with
  | nil => intro num m _ _ c hc; exact absurd hc (List.not_mem_nil c)
  | cons c rest ih =>
    intro num m hnum hok d hd
    rw [checkNeighborCountsAux] at hok
    simp only [if_neg hnum] at hok
    by_cases hcn : c = num
    · rw [if_neg (by simpa using hcn)] at hok
      rcases List.mem_cons.mp hd with h | h
      · exact h.trans hcn
      · exact ih num m hnum hok d h
    · rw [if_pos (by simpa using hcn)] at hok
      exact absurd hok (by simp)

theorem checkNeighborCountsAux_all_eq_ok (l : List Nat) :
    ∀ num : Nat, (∀ c ∈ l, c = num) → checkNeighborCountsAux num l = Except.ok num := by
  induction l with
  | nil => intro num _; rfl
  | cons c rest ih =>
    intro num hall
    have hc : c = num := hall c (List.mem_cons_self c rest)
    rw [checkNeighborCountsAux]
    have hnum2 : (if num = 0 then c else num) = num := by
      by_cases h : num = 0
      · rw [if_pos h, hc]
      · rw [if_neg h]
    rw [hnum2, if_neg (by simpa using hc)]
    exact ih num (fun d hd => hall d (List.mem_cons_of_mem c hd))

/-- C1 (amended): after the multimesh-tree reconciliation, provided every
present NeighborSearch reports a positive neighbor count, any two differing
counts make `assemble_one_DG_state` abort with the fatal error; and when all
counts agree no abort happens.  (The amendment restricts the claim to positive
counts: a search reporting zero neighbors before the first nonzero count is
treated by the source's accumulator as "unset" and a mismatch against it is
silently ignored, see the counterexample.) -/
theorem C1_neighbor_count_mismatch_aborts :
    (∀ counts : List Nat, (∀ c ∈ counts, 0 < c) →
      (∃ a ∈ counts, ∃ b ∈ counts, a ≠ b) →
      neighborCountsMismatch counts = true)
    ∧ (∀ (counts : List Nat) (c0 : Nat), (∀ c ∈ counts, c = c0) →
      neighborCountsMismatch counts = false) := by
  constructor
  · intro counts hpos hdiff
    obtain ⟨a, ha, b, hb, hab⟩ := hdiff
    cases counts with
    | nil => exact absurd ha (List.not_mem_nil a)
    | cons c rest =>
      rw [neighborCountsMismatch]
      cases hres : checkNeighborCounts (c :: rest) with
      | error e => rfl
      | ok m =>
        exfalso
        rw [checkNeighborCounts, checkNeighborCountsAux] at hres
        rw [if_pos rfl, if_neg (by simp)] at hres
        have hc0 : c ≠ 0 := Nat.pos_iff_ne_zero.mp (hpos c (List.mem_cons_self c rest))
        have hall := checkNeighborCountsAux_ok_all_eq rest c m hc0 hres
        have hmem : ∀ d ∈ c :: rest, d = c := by
          intro d hd
          rcases List.mem_cons.mp hd with h | h
          · exact h
          · exact hall d h
        exact hab ((hmem a ha).trans (hmem b hb).symm)
  · intro counts c0 hall
    cases counts with
    | nil => rfl
    | cons c rest =>
      rw [neighborCountsMismatch, checkNeighborCounts, checkNeighborCountsAux]
      rw [if_pos rfl, if_neg (by simp)]
      have hc : c = c0 := hall c (List.mem_cons_self c rest)
      rw [checkNeighborCountsAux_all_eq_ok rest c
        (fun d hd => ((hall d (List.mem_cons_of_mem c hd)).trans hc.symm))]

/-- C1 witness: two present searches with counts 2 and 3 (both positive)
trigger the fatal mismatch error. -/
theorem C1_neighbor_count_mismatch_aborts_witness :
    ((∀ c ∈ [2, 3], 0 < c) ∧ (∃ a ∈ [2, 3], ∃ b ∈ [2, 3], a ≠ b))
    ∧ neighborCountsMismatch [2, 3] = true :=
  ⟨⟨by decide, by decide⟩,
    C1_neighbor_count_mismatch_aborts.1 [2, 3] (by decide) (by decide)⟩

/-- C1 counterexample: with present neighbor counts 0 and 3 — two different
counts — the check of assemble_one_DG_state accepts silently (the accumulator
treats the leading 0 as "not yet set"), so the claim that any two differing
counts abort assembly is false as stated. -/
theorem C1_counterexample :
    checkNeighborCounts [0, 3] = Except.ok 3 ∧ (0 : Nat) ≠ 3 := by
  exact ⟨rfl, by decide⟩

/-- C9: after set_fvm, both calc_order_matrix_form and calc_order_vector_form
return the inverse reference-map order of the form's test space
(`current_refmaps[form->i]->get_inv_ref_order()`), and the form's symbolic
order estimator is never invoked. -/
theorem C9_fvm_order_shortcut (s : DPFlags) (invRefOrder : Nat → Nat)
    (f : MatrixFormData) (g : VectorFormData) (est1 est2 mx : Nat) :
    calc_order_matrix_form (set_fvm s).is_fvm invRefOrder f est1 mx = (invRefOrder f.i, false)
    ∧ calc_order_vector_form (set_fvm s).is_fvm invRefOrder g est2 mx = (invRefOrder g.i, false) := by
  constructor
  · rw [calc_order_matrix_form]; rw [set_fvm]; rw [if_pos rfl]
  · rw [calc_order_vector_form]; rw [set_fvm]; rw [if_pos rfl]

/-- C8: a DiscreteProblem whose number of spaces differs from the weak form's
number of equations fails fatally in init, and an assemble call whose
block-weight table size differs from the number of equations throws the
LengthException before create_sparse_structure runs (the error result of
assembleStructural carries no structural outcome: no matrix or rhs operation
has been performed). -/
theorem C8_config_mismatch_fatal :
    (∀ nSpaces neq : Nat, nSpaces ≠ neq →
      initSpaceCheck nSpaces neq = Except.error "Bad number of spaces in DiscreteProblem.")
    ∧ (∀ (c : DPCache) (p : ProblemConfig) (rp rn : Bool) (w : WFSurfData)
        (fd : List Nat) (ads : List Int → List Int) (neq s : Nat),
        s ≠ neq →
        assembleStructural c p true rp rn w fd ads neq (some s)
          = Except.error { param := 6, got := s, expected := neq }) := by
  constructor
  · intro nSpaces neq h
    rw [initSpaceCheck, if_pos h]
  · intro c p rp rn w fd ads neq s h
    rw [assembleStructural]
    simp only [if_pos h]

/-- C8 witness: two spaces against one equation fail in init; a block-weight
table of size 2 against one equation throws LengthException(6, 2, 1). -/
theorem C8_config_mismatch_fatal_witness :
    ((2 : Nat) ≠ 1
      ∧ initSpaceCheck 2 1 = Except.error "Bad number of spaces in DiscreteProblem.")
    ∧ (assembleStructural { have_matrix := false, sp_seq := [], wf_seq := -1 }
        { space_seqs := [0], wf_seq := 0 } true true false
        { mfsurf := [], vfsurf := [] } [0] id 1 (some 2)
        = Except.error { param := 6, got := 2, expected := 1 }) :=
  ⟨⟨by decide, C8_config_mismatch_fatal.1 2 1 (by decide)⟩,
    C8_config_mismatch_fatal.2 { have_matrix := false, sp_seq := [], wf_seq := -1 }
      { space_seqs := [0], wf_seq := 0 } true false
      { mfsurf := [], vfsurf := [] } [0] id 1 2 (by decide)⟩

theorem is_up_to_date_saved (p : ProblemConfig) :
    is_up_to_date { have_matrix := true, sp_seq := p.space_seqs, wf_seq := p.wf_seq } p = true := by
  simp [is_up_to_date]

theorem is_up_to_date_stale_space (c : DPCache) (p : ProblemConfig) (i : Nat)
    (hi : i < p.space_seqs.length) (hne : seqAt p.space_seqs i ≠ seqAt c.sp_seq i) :
    is_up_to_date c p = false := by
  rw [is_up_to_date]
  have hb : ((List.range p.space_seqs.length).all fun k =>
      seqAt p.space_seqs k == seqAt c.sp_seq k) = false := by
    apply Bool.eq_false_iff.mpr
    intro h
    rw [List.all_eq_true] at h
    exact hne (by simpa using h i (List.mem_range.mpr hi))
  rw [hb]
  simp

theorem is_up_to_date_stale_wf (c : DPCache) (p : ProblemConfig)
    (hne : p.wf_seq ≠ c.wf_seq) : is_up_to_date c p = false := by
  rw [is_up_to_date]
  have hb : (p.wf_seq == c.wf_seq) = false := by simpa using hne
  rw [hb]
  simp

theorem css_stale_rebuilds (c : DPCache) (p : ProblemConfig)
    (mp rp rn : Bool) (w : WFSurfData) (fd : List Nat) (ads : List Int → List Int)
    (h : is_up_to_date c p = false) :
    (create_sparse_structure c p mp rp rn w fd ads).action = StructAction.rebuild := by
  rw [create_sparse_structure]
  rw [h]
  cases mp with
  | false => rfl
  | true => cases hw : wf_is_DG w <;> simp [hw]

theorem css_with_matrix_up_to_date (c : DPCache) (p : ProblemConfig)
    (rp rn : Bool) (w : WFSurfData) (fd : List Nat) (ads : List Int → List Int) :
    is_up_to_date (create_sparse_structure c p true rp rn w fd ads).cache
        (create_sparse_structure c p true rp rn w fd ads).config = true := by
  rw [create_sparse_structure]
  by_cases h : is_up_to_date c p = true
  · rw [if_pos h]
    exact h
  · rw [if_neg h]
    cases hw : wf_is_DG w <;> simp only [hw] <;> exact is_up_to_date_saved _

/-- C2: an assemble call that is given a matrix leaves the problem up to date
(is_up_to_date true), so a second create_sparse_structure with unchanged
sequence numbers reuses the structure, performing only a zeroing of the
matrix and rhs values; conversely, a space sequence number differing from the
cached one, or a differing weak-form sequence number, makes is_up_to_date
false and the next create_sparse_structure rebuild the structure from
scratch. -/
theorem C2_structure_cache (c : DPCache) (p : ProblemConfig) (rp rn : Bool)
    (w : WFSurfData) (fd : List Nat) (ads : List Int → List Int)
    (neq : Nat) (bws : Option Nat) (res : CSSResult)
    (hok : assembleStructural c p true rp rn w fd ads neq bws = Except.ok res) :
    is_up_to_date res.cache res.config = true
    ∧ (create_sparse_structure res.cache res.config true rp true w fd ads).action
        = StructAction.reuse
    ∧ (create_sparse_structure res.cache res.config true rp true w fd ads).mat_ops
        = [MatOp.zero]
    ∧ (create_sparse_structure res.cache res.config true rp true w fd ads).rhs_ops
        = (if rp then [MatOp.zero] else [])
    ∧ (∀ (c2 : DPCache) (p2 : ProblemConfig) (i : Nat),
        i < p2.space_seqs.length →
        seqAt p2.space_seqs i ≠ seqAt c2.sp_seq i →
        is_up_to_date c2 p2 = false
          ∧ (create_sparse_structure c2 p2 true rp rn w fd ads).action
              = StructAction.rebuild)
    ∧ (∀ (c2 : DPCache) (p2 : ProblemConfig),
        p2.wf_seq ≠ c2.wf_seq →
        is_up_to_date c2 p2 = false
          ∧ (create_sparse_structure c2 p2 true rp rn w fd ads).action
              = StructAction.rebuild) := by
  have hres : res = create_sparse_structure c p true rp rn w fd ads := by
    cases bws with
    | none =>
      rw [assembleStructural] at hok
      exact (Except.ok.injEq _ _).mp hok.symm
    | some s =>
      rw [assembleStructural] at hok
      by_cases hs : s ≠ neq
      · rw [if_pos hs] at hok
        exact absurd hok (by simp)
      · rw [if_neg hs] at hok
        exact (Except.ok.injEq _ _).mp hok.symm
  subst hres
  have hutd := css_with_matrix_up_to_date c p rp rn w fd ads
  refine ⟨hutd, ?_, ?_, ?_, ?_, ?_⟩
  · rw [create_sparse_structure, if_pos hutd]
  · rw [create_sparse_structure, if_pos hutd]
    simp
  · rw [create_sparse_structure, if_pos hutd]
    cases rp <;> simp
  · intro c2 p2 i hi hne
    exact ⟨is_up_to_date_stale_space c2 p2 i hi hne,
      css_stale_rebuilds c2 p2 true rp rn w fd ads (is_up_to_date_stale_space c2 p2 i hi hne)⟩
  · intro c2 p2 hne
    exact ⟨is_up_to_date_stale_wf c2 p2 hne,
      css_stale_rebuilds c2 p2 true rp rn w fd ads (is_up_to_date_stale_wf c2 p2 hne)⟩

/-- C2 witness: a stale one-space problem assembled with a matrix becomes up
to date; the stale parts are exercised via the universally quantified
conjuncts at a cache with a differing sequence number. -/
theorem C2_structure_cache_witness :
    (assembleStructural { have_matrix := false, sp_seq := [-1], wf_seq := -1 }
        { space_seqs := [5], wf_seq := 7 } true true false
        { mfsurf := [], vfsurf := [] } [0] id 1 none
      = Except.ok (create_sparse_structure { have_matrix := false, sp_seq := [-1], wf_seq := -1 }
          { space_seqs := [5], wf_seq := 7 } true true false
          { mfsurf := [], vfsurf := [] } [0] id))
    ∧ is_up_to_date
        (create_sparse_structure { have_matrix := false, sp_seq := [-1], wf_seq := -1 }
          { space_seqs := [5], wf_seq := 7 } true true false
          { mfsurf := [], vfsurf := [] } [0] id).cache
        (create_sparse_structure { have_matrix := false, sp_seq := [-1], wf_seq := -1 }
          { space_seqs := [5], wf_seq := 7 } true true false
          { mfsurf := [], vfsurf := [] } [0] id).config = true :=
  ⟨rfl,
    (C2_structure_cache { have_matrix := false, sp_seq := [-1], wf_seq := -1 }
      { space_seqs := [5], wf_seq := 7 } true false
      { mfsurf := [], vfsurf := [] } [0] id 1 none _ rfl).1⟩

/-- C10: on a sparse-structure rebuild with a matrix present and a weak form
containing a DG inner-edge surface form, every spaces_first_dofs entry is
reset to 0 and Space::assign_dofs is invoked on the spaces (renumbering them,
modelled by the assignDofsSeqs transformer on the sequence numbers); without
any DG inner-edge form, create_sparse_structure leaves the spaces and the
first-DOF offsets unchanged and never calls assign_dofs. -/
theorem C10_dg_rebuild_mutates_spaces (c : DPCache) (p : ProblemConfig)
    (rp rn : Bool) (w : WFSurfData) (fd : List Nat) (ads : List Int → List Int)
    (hstale : is_up_to_date c p = false) :
    (wf_is_DG w = true →
      (create_sparse_structure c p true rp rn w fd ads).first_dofs
          = List.replicate fd.length 0
        ∧ (create_sparse_structure c p true rp rn w fd ads).assign_dofs_called = true
        ∧ (create_sparse_structure c p true rp rn w fd ads).config.space_seqs
            = ads p.space_seqs)
    ∧ (wf_is_DG w = false →
      ∀ (c2 : DPCache) (p2 : ProblemConfig) (mp : Bool),
        (create_sparse_structure c2 p2 mp rp rn w fd ads).first_dofs = fd
          ∧ (create_sparse_structure c2 p2 mp rp rn w fd ads).assign_dofs_called = false
          ∧ (create_sparse_structure c2 p2 mp rp rn w fd ads).config = p2) := by
  constructor
  · intro hdg
    rw [create_sparse_structure, hstale]
    simp only [hdg]
    exact ⟨rfl, rfl, rfl⟩
  · intro hdg c2 p2 mp
    rw [create_sparse_structure]
    by_cases h2 : is_up_to_date c2 p2 = true
    · rw [if_pos h2]
      exact ⟨rfl, rfl, rfl⟩
    · rw [if_neg h2]
      cases mp with
      | false => exact ⟨rfl, rfl, rfl⟩
      | true =>
        simp only [hdg]
        exact ⟨rfl, rfl, rfl⟩

/-- C10 witness: a stale cache with a DG weak form resets the offsets and
calls assign_dofs; the no-DG conjunct is exercised at the same inputs with an
empty surface-form list. -/
theorem C10_dg_rebuild_mutates_spaces_witness :
    (is_up_to_date { have_matrix := false, sp_seq := [-1], wf_seq := -1 }
        { space_seqs := [5], wf_seq := 7 } = false
      ∧ wf_is_DG { mfsurf := [[Area.dgInnerEdge]], vfsurf := [] } = true)
    ∧ (create_sparse_structure { have_matrix := false, sp_seq := [-1], wf_seq := -1 }
        { space_seqs := [5], wf_seq := 7 } true true false
        { mfsurf := [[Area.dgInnerEdge]], vfsurf := [] } [0, 4] (fun l => l.map (· + 1))).first_dofs
        = List.replicate 2 0
    ∧ (create_sparse_structure { have_matrix := false, sp_seq := [-1], wf_seq := -1 }
        { space_seqs := [5], wf_seq := 7 } true true false
        { mfsurf := [[Area.dgInnerEdge]], vfsurf := [] } [0, 4] (fun l => l.map (· + 1))).assign_dofs_called
        = true
    ∧ (create_sparse_structure { have_matrix := false, sp_seq := [-1], wf_seq := -1 }
        { space_seqs := [5], wf_seq := 7 } true true false
        { mfsurf := [[Area.dgInnerEdge]], vfsurf := [] } [0, 4] (fun l => l.map (· + 1))).config.space_seqs
        = [6] := by
  refine ⟨⟨by decide, by decide⟩, ?_⟩
  have h := (C10_dg_rebuild_mutates_spaces { have_matrix := false, sp_seq := [-1], wf_seq := -1 }
    { space_seqs := [5], wf_seq := 7 } true false
    { mfsurf := [[Area.dgInnerEdge]], vfsurf := [] } [0, 4] (fun l => l.map (· + 1))
    (by decide)).1 (by decide)
  exact ⟨h.1, h.2.1, by rw [h.2.2]; decide⟩

theorem assembleStatesAux_all_ok (work : Nat → Except String Unit) :
    ∀ (rem i : Nat), (∀ s, i ≤ s → s < i + rem → work s = Except.ok ()) →
      assembleStatesAux work rem i = (i + rem, none) := by
  intro rem
  induction rem with
  | zero => intro i _; rfl
  | succ r ih =>
    intro i hok
    rw [assembleStatesAux]
    rw [hok i (Nat.le_refl i) (by omega)]
    have := ih (i + 1) (fun s hs1 hs2 => hok s (by omega) (by omega))
    rw [this]
    have harith : i + 1 + r = i + (r + 1) := by omega
    rw [harith]

theorem assembleStatesAux_first_error (work : Nat → Except String Unit) :
    ∀ (rem i k : Nat) (m : String), i ≤ k → k < i + rem →
      work k = Except.error m → (∀ j, i ≤ j → j < k → work j = Except.ok ()) →
      assembleStatesAux work rem i = (k, some m) := by
  intro rem
  induction rem with
  | zero => intro i k m h1 h2 _ _; omega
  | succ r ih =>
    intro i k m h1 h2 herr hok
    rw [assembleStatesAux]
    by_cases hik : i = k
    · subst hik
      rw [herr]
    · rw [hok i (Nat.le_refl i) (by omega)]
      exact ih (i + 1) k m (by omega) (by omega) herr
        (fun j hj1 hj2 => hok j (by omega) hj2)

/-- C7 (amended): the parallel region of assemble contains no exception
handler, so an exception raised in one worker's per-state work escapes the
region immediately: the loop stops at the first failing state in schedule
order, the remaining states' work is not run, and no capture or
consolidation happens; only when every state's work succeeds does the region
complete all states. -/
theorem C7_exception_escapes_region :
    (∀ (n : Nat) (work : Nat → Except String Unit),
      (∀ i, i < n → work i = Except.ok ()) → assembleStates n work = (n, none))
    ∧ (∀ (n : Nat) (work : Nat → Except String Unit) (k : Nat) (m : String),
      k < n → work k = Except.error m → (∀ j, j < k → work j = Except.ok ()) →
      assembleStates n work = (k, some m)) := by
  constructor
  · intro n work hok
    rw [assembleStates]
    have := assembleStatesAux_all_ok work n 0 (fun s _ hs => hok s (by omega))
    rw [this, Nat.zero_add]
  · intro n work k m hk herr hok
    rw [assembleStates]
    exact assembleStatesAux_first_error work n 0 k m (Nat.zero_le k) (by omega) herr
      (fun j _ hj => hok j hj)

/-- C7 witness: with two states and the first one raising, the region stops
immediately with zero states processed. -/
theorem C7_exception_escapes_region_witness :
    ((0 : Nat) < 2
      ∧ (fun i => if i = 0 then Except.error "failure in form evaluation"
          else Except.ok ()) 0 = (Except.error "failure in form evaluation" : Except String Unit))
    ∧ assembleStates 2 (fun i => if i = 0 then Except.error "failure in form evaluation"
        else Except.ok ()) = (0, some "failure in form evaluation") :=
  ⟨⟨by decide, rfl⟩,
    C7_exception_escapes_region.2 2
      (fun i => if i = 0 then Except.error "failure in form evaluation" else Except.ok ())
      0 "failure in form evaluation" (by decide) rfl (fun j hj => absurd hj (by omega))⟩

/-- C7 counterexample: with two states whose first raises, the source's
handler-free region stops with 0 of 2 states processed, while the
capture-and-consolidate semantics claimed by the spec would have processed
all 2 states before rethrowing; the claim that the message is captured, all
remaining workers run to completion and a consolidated error is rethrown
afterwards is false of the code. -/
theorem C7_counterexample :
    assembleStates 2 (fun i => if i = 0 then Except.error "failure in form evaluation"
        else Except.ok ()) = (0, some "failure in form evaluation")
    ∧ assembleStatesCaptured 2 (fun i => if i = 0 then Except.error "failure in form evaluation"
        else Except.ok ()) = (2, some "failure in form evaluation")
    ∧ (0 : Nat) ≠ 2 := by
  refine ⟨rfl, ?_, by decide⟩
  rfl

theorem matrixFormToBeAssembled_false (bw : Option (Nat → Nat → ℚ))
    (f : MatrixFormData) (st : TravState)
    (h : st.present f.i = false ∨ st.present f.j = false
      ∨ |f.scaling_factor| < negligible
      ∨ ∃ A, bw = some A ∧ |A f.i f.j| < negligible) :
    matrixFormToBeAssembled bw f st = false := by
  rw [matrixFormToBeAssembled.eq_def]
  rcases h with h | h | h | ⟨A, rfl, hA⟩
  · rw [if_pos (by simp [h])]
  · rw [if_pos (by simp [h])]
  · by_cases hp : (!st.present f.i || !st.present f.j) = true
    · rw [if_pos hp]
    · rw [if_neg hp, if_pos h]
  · by_cases hp : (!st.present f.i || !st.present f.j) = true
    · rw [if_pos hp]
    · rw [if_neg hp]
      by_cases hs : |f.scaling_factor| < negligible
      · rw [if_pos hs]
      · rw [if_neg hs]
        change (if |A f.i f.j| < negligible then false else true) = false
        rw [if_pos hA]

theorem vectorFormToBeAssembled_false (f : VectorFormData) (st : TravState)
    (h : st.present f.i = false ∨ |f.scaling_factor| < negligible) :
    vectorFormToBeAssembled f st = false := by
  rw [vectorFormToBeAssembled]
  rcases h with h | h
  · rw [if_pos (by simp [h])]
  · by_cases hp : (!st.present f.i) = true
    · rw [if_pos hp]
    · rw [if_neg hp, if_pos h]

/-- C6: a matrix form is skipped — its applicability predicate is false and it
contributes no accumulation call whatsoever for the state — whenever either
endpoint field's element is null in the state, or its scaling factor has
magnitude below 1e-12, or a block-weight table is supplied whose corresponding
weight has magnitude below 1e-12; a vector form is likewise skipped when its
field's element is null or its scaling factor is below 1e-12.  In particular
(witness) a form with scaling factor 1e-13 contributes exactly nothing. -/
theorem C6_negligible_forms_skipped :
    (∀ (bw : Option (Nat → Nat → ℚ)) (spaces : Nat → SpaceData) (f : MatrixFormData)
        (st : TravState) (value : Nat → Nat → ℚ) (als : Nat → List ALItem),
      (st.present f.i = false ∨ st.present f.j = false
        ∨ |f.scaling_factor| < negligible
        ∨ ∃ A, bw = some A ∧ |A f.i f.j| < negligible) →
      matrixFormToBeAssembled bw f st = false
        ∧ matrixVolContribution bw spaces f st value als = []
        ∧ matrixSurfContribution bw spaces f st value als = [])
    ∧ (∀ (spaces : Nat → SpaceData) (f : VectorFormData) (st : TravState)
        (value : Nat → ℚ) (al : List ALItem),
      (st.present f.i = false ∨ |f.scaling_factor| < negligible) →
      vectorFormToBeAssembled f st = false
        ∧ vectorVolContribution spaces f st value al = []
        ∧ vectorSurfContribution spaces f st value al = []) := by
  constructor
  · intro bw spaces f st value als h
    have hbase := matrixFormToBeAssembled_false bw f st h
    refine ⟨hbase, ?_, ?_⟩
    · rw [matrixVolContribution, matrixFormVolToBeAssembled, hbase]
      simp
    · rw [matrixSurfContribution, matrixFormSurfToBeAssembled]
      split
      · simp
      · split
        · simp
        · rw [hbase]
          simp
  · intro spaces f st value al h
    have hbase := vectorFormToBeAssembled_false f st h
    refine ⟨hbase, ?_, ?_⟩
    · rw [vectorVolContribution, vectorFormVolToBeAssembled, hbase]
      simp
    · rw [vectorSurfContribution, vectorFormSurfToBeAssembled]
      split
      · simp
      · split
        · simp
        · rw [hbase]
          simp

/-- C6 witness: a matrix form and a vector form, both applicable markers but
with scaling factor 1e-13 (below the 1e-12 threshold), contribute nothing on
a state where both fields are present. -/
theorem C6_negligible_forms_skipped_witness :
    (|(1 / 10000000000000 : ℚ)| < negligible
      ∧ matrixVolContribution none (fun _ => { elemMarkers := { valid := fun _ => false, marker := fun _ => 0 }, bndMarkers := { valid := fun _ => false, marker := fun _ => 0 } })
          { i := 0, j := 0, sym := 0, scaling_factor := 1 / 10000000000000, areas := [Area.any] }
          { present := fun _ => true, repMarker := 1, edgeMarker := 1 }
          (fun _ _ => 1) (fun _ => [{ dof := 0, coef := 1 }]) = [])
    ∧ vectorVolContribution (fun _ => { elemMarkers := { valid := fun _ => false, marker := fun _ => 0 }, bndMarkers := { valid := fun _ => false, marker := fun _ => 0 } })
        { i := 0, scaling_factor := 1 / 10000000000000, areas := [Area.any] }
        { present := fun _ => true, repMarker := 1, edgeMarker := 1 }
        (fun _ => 1) [{ dof := 0, coef := 1 }] = [] := by
  have hsmall : |(1 / 10000000000000 : ℚ)| < negligible := by
    rw [negligible, abs_of_pos (by norm_num : (0:ℚ) < 1 / 10000000000000)]
    norm_num
  refine ⟨⟨hsmall, ?_⟩, ?_⟩
  · exact (C6_negligible_forms_skipped.1 none _
      { i := 0, j := 0, sym := 0, scaling_factor := 1 / 10000000000000, areas := [Area.any] }
      { present := fun _ => true, repMarker := 1, edgeMarker := 1 }
      (fun _ _ => 1) (fun _ => [{ dof := 0, coef := 1 }])
      (Or.inr (Or.inr (Or.inl hsmall)))).2.1
  · exact (C6_negligible_forms_skipped.2 _
      { i := 0, scaling_factor := 1 / 10000000000000, areas := [Area.any] }
      { present := fun _ => true, repMarker := 1, edgeMarker := 1 }
      (fun _ => 1) [{ dof := 0, coef := 1 }]
      (Or.inr hsmall)).2.1

theorem applyWrite_pair_symm (M : Nat → Nat → ℚ) (hM : ∀ p q, M p q = M q p)
    (r c : Nat) (v : ℚ) :
    ∀ p q, applyWrite M (WriteOp.pair r c v) p q = applyWrite M (WriteOp.pair r c v) q p := by
  intro p q
  simp only [applyWrite]
  by_cases h1 : (p = r ∧ q = c) ∨ (p = c ∧ q = r)
  · rw [if_pos h1, if_pos (by tauto)]
  · rw [if_neg h1, if_neg (by tauto), hM]

theorem applyWrites_pairs_symm (ws : List WriteOp) :
    ∀ (M : Nat → Nat → ℚ), (∀ p q, M p q = M q p) →
      (∀ op ∈ ws, ∃ r c v, op = WriteOp.pair r c v) →
      ∀ p q, applyWrites ws M p q = applyWrites ws M q p := by
  induction ws with
  | nil => intro M hM _ p q; exact hM p q
  | cons op rest ih =>
    intro M hM hops p q
    obtain ⟨r, c, v, rfl⟩ := hops op (List.mem_cons_self op rest)
    exact ih (applyWrite M (WriteOp.pair r c v)) (applyWrite_pair_symm M hM r c v)
      (fun op2 h2 => hops op2 (List.mem_cons_of_mem _ h2)) p q

theorem symWriteAt_shape (f : MatrixFormData) (bw : Option (Nat → Nat → ℚ))
    (value : Nat → Nat → ℚ) (ali alj : List ALItem) (i j : Nat) (op : WriteOp)
    (h : symWriteAt f bw value ali alj i j = some op) :
    ∃ v, op = WriteOp.pair i j v ∧ i ≤ j := by
  rw [symWriteAt] at h
  by_cases h1 : j < i ∧ alDof alj j ≥ 0
  · rw [if_pos h1] at h
    exact absurd h (by simp)
  · rw [if_neg h1] at h
    by_cases h2 : alDof alj j ≥ 0
    · rw [if_pos h2] at h
      by_cases h3 : |alCoef alj j| < negligible
      · rw [if_pos h3] at h
        exact absurd h (by simp)
      · rw [if_neg h3] at h
        have hji : ¬ j < i := fun hj => h1 ⟨hj, h2⟩
        exact ⟨_, (Option.some.inj h).symm, by omega⟩
    · rw [if_neg h2] at h
      exact absurd h (by simp)

theorem matrixFormWrites_sym_mem (surface : Bool) (f : MatrixFormData)
    (bw : Option (Nat → Nat → ℚ)) (value : Nat → Nat → ℚ) (als : Nat → List ALItem)
    (hij : f.i = f.j) (hsym : f.sym = 1) :
    ∀ op ∈ matrixFormWrites surface f bw value als,
      ∃ r c v, op = WriteOp.pair r c v ∧ r ≤ c := by
  intro op hop
  have hsymB : (decide (f.i = f.j) && decide (f.sym = 1)) = true := by
    simp [hij, hsym]
  simp only [matrixFormWrites, hsymB, Bool.not_true] at hop
  rcases List.mem_flatMap.mp hop with ⟨i, hi, hin⟩
  by_cases hrow : (!matrixRowAccepted (decide (f.i ≠ f.j) && decide (f.sym ≠ 0)) surface (als f.i) i) = true
  · rw [if_pos hrow] at hin
    exact absurd hin (List.not_mem_nil op)
  · rw [if_neg hrow, if_neg (by simp)] at hin
    rcases List.mem_filterMap.mp hin with ⟨j, hj, hw⟩
    obtain ⟨v, rfl, hle⟩ := symWriteAt_shape f bw value (als f.i) (als f.j) i j op hw
    exact ⟨i, j, v, rfl, hle⟩

/-- C4: for a matrix form tagged symmetric with equal row and column indices
(i == j, sym == 1), the local stiffness matrix produced by
assemble_matrix_form is entrywise symmetric at the moment it is inserted into
the global matrix, and only one triangle of index pairs is evaluated: every
performed write is a mirrored pair-write at indices r ≤ c, the same value
being stored at the transposed entry. -/
theorem C4_symmetric_local_block (surface : Bool) (f : MatrixFormData)
    (bw : Option (Nat → Nat → ℚ)) (value : Nat → Nat → ℚ) (als : Nat → List ALItem)
    (hij : f.i = f.j) (hsym : f.sym = 1) :
    (∀ p q, localStiffnessMatrix surface f bw value als p q
        = localStiffnessMatrix surface f bw value als q p)
    ∧ (∀ op ∈ matrixFormWrites surface f bw value als,
        ∃ r c v, op = WriteOp.pair r c v ∧ r ≤ c) := by
  have hmem := matrixFormWrites_sym_mem surface f bw value als hij hsym
  refine ⟨?_, hmem⟩
  intro p q
  exact applyWrites_pairs_symm (matrixFormWrites surface f bw value als) zeroBlock
    (fun a b => rfl)
    (fun op h => by
      obtain ⟨r, c, v, he, _⟩ := hmem op h
      exact ⟨r, c, v, he⟩) p q

/-- C4 witness: a symmetric form at (0, 0) with a deliberately non-symmetric
value callable and two free DOFs still produces a symmetric local block. -/
theorem C4_symmetric_local_block_witness :
    (({ i := 0, j := 0, sym := 1, scaling_factor := 1, areas := [Area.any] } : MatrixFormData).i
        = ({ i := 0, j := 0, sym := 1, scaling_factor := 1, areas := [Area.any] } : MatrixFormData).j
      ∧ ({ i := 0, j := 0, sym := 1, scaling_factor := 1, areas := [Area.any] } : MatrixFormData).sym = 1)
    ∧ ((∀ p q, localStiffnessMatrix false
          { i := 0, j := 0, sym := 1, scaling_factor := 1, areas := [Area.any] } none
          (fun a b => (a : ℚ) + 2 * b)
          (fun _ => [{ dof := 0, coef := 1 }, { dof := 1, coef := 1 }]) p q
        = localStiffnessMatrix false
          { i := 0, j := 0, sym := 1, scaling_factor := 1, areas := [Area.any] } none
          (fun a b => (a : ℚ) + 2 * b)
          (fun _ => [{ dof := 0, coef := 1 }, { dof := 1, coef := 1 }]) q p)
      ∧ (∀ op ∈ matrixFormWrites false
            { i := 0, j := 0, sym := 1, scaling_factor := 1, areas := [Area.any] } none
            (fun a b => (a : ℚ) + 2 * b)
            (fun _ => [{ dof := 0, coef := 1 }, { dof := 1, coef := 1 }]),
          ∃ r c v, op = WriteOp.pair r c v ∧ r ≤ c)) :=
  ⟨⟨rfl, rfl⟩,
    C4_symmetric_local_block false
      { i := 0, j := 0, sym := 1, scaling_factor := 1, areas := [Area.any] } none
      (fun a b => (a : ℚ) + 2 * b)
      (fun _ => [{ dof := 0, coef := 1 }, { dof := 1, coef := 1 }]) rfl rfl⟩

/-- C5: for a matrix form with i != j and a nonzero symmetry tag,
assemble_matrix_form performs exactly two global accumulation calls: first
the local block at block position (i, j), then the transposed block at block
position (j, i), whose every entry is the corresponding transposed entry
multiplied by -1 exactly when the tag is antisymmetric (sym < 0), so the
(j, i) contribution is minus the transpose of the (i, j) contribution for
antisymmetric forms and the plain transpose for symmetric ones. -/
theorem C5_offdiagonal_transposed_block (surface : Bool) (f : MatrixFormData)
    (bw : Option (Nat → Nat → ℚ)) (value : Nat → Nat → ℚ) (als : Nat → List ALItem)
    (hij : f.i ≠ f.j) (hsym : f.sym ≠ 0) :
    assembleMatrixForm surface f bw value als =
      [{ rowCnt := (als f.i).length, colCnt := (als f.j).length,
         rows := (als f.i).map ALItem.dof, cols := (als f.j).map ALItem.dof,
         mat := localStiffnessMatrix surface f bw value als },
       { rowCnt := (als f.j).length, colCnt := (als f.i).length,
         rows := (als f.j).map ALItem.dof, cols := (als f.i).map ALItem.dof,
         mat := fun p q => (if f.sym < 0 then (-1 : ℚ) else 1)
           * localStiffnessMatrix surface f bw value als q p }] := by
  have htra : (decide (f.i ≠ f.j) && decide (f.sym ≠ 0)) = true := by
    simp [hij, hsym]
  have hmat : transposeBlock (if f.sym < 0 then chsgnBlock (localStiffnessMatrix surface f bw value als)
        else localStiffnessMatrix surface f bw value als)
      = fun p q => (if f.sym < 0 then (-1 : ℚ) else 1)
          * localStiffnessMatrix surface f bw value als q p := by
    funext p q
    by_cases h : f.sym < 0
    · rw [if_pos h]
      simp [transposeBlock, chsgnBlock, if_pos h, neg_one_mul]
    · rw [if_neg h]
      simp [transposeBlock, if_neg h, one_mul]
  simp only [assembleMatrixForm, htra, if_true, hmat]

/-- C5 witness: an antisymmetric form at block (0, 1) produces the two add
calls with the sign-flipped transposed second block. -/
theorem C5_offdiagonal_transposed_block_witness :
    (({ i := 0, j := 1, sym := -1, scaling_factor := 1, areas := [Area.any] } : MatrixFormData).i
        ≠ ({ i := 0, j := 1, sym := -1, scaling_factor := 1, areas := [Area.any] } : MatrixFormData).j
      ∧ ({ i := 0, j := 1, sym := -1, scaling_factor := 1, areas := [Area.any] } : MatrixFormData).sym ≠ 0)
    ∧ assembleMatrixForm false
        { i := 0, j := 1, sym := -1, scaling_factor := 1, areas := [Area.any] } none
        (fun a b => (a : ℚ) + 2 * b)
        (fun k => if k = 0 then [{ dof := 0, coef := 1 }] else [{ dof := 1, coef := 1 }]) =
      [{ rowCnt := 1, colCnt := 1, rows := [0], cols := [1],
         mat := localStiffnessMatrix false
           { i := 0, j := 1, sym := -1, scaling_factor := 1, areas := [Area.any] } none
           (fun a b => (a : ℚ) + 2 * b)
           (fun k => if k = 0 then [{ dof := 0, coef := 1 }] else [{ dof := 1, coef := 1 }]) },
       { rowCnt := 1, colCnt := 1, rows := [1], cols := [0],
         mat := fun p q => (if (-1 : Int) < 0 then (-1 : ℚ) else 1)
           * localStiffnessMatrix false
             { i := 0, j := 1, sym := -1, scaling_factor := 1, areas := [Area.any] } none
             (fun a b => (a : ℚ) + 2 * b)
             (fun k => if k = 0 then [{ dof := 0, coef := 1 }] else [{ dof := 1, coef := 1 }]) q p }] := by
  refine ⟨⟨by decide, by decide⟩, ?_⟩
  exact C5_offdiagonal_transposed_block false
    { i := 0, j := 1, sym := -1, scaling_factor := 1, areas := [Area.any] } none
    (fun a b => (a : ℚ) + 2 * b)
    (fun k => if k = 0 then [{ dof := 0, coef := 1 }] else [{ dof := 1, coef := 1 }])
    (by decide) (by decide)

theorem matrixRowAccepted_surface_irrel (tra s1 s2 : Bool) (ali : List ALItem) (i : Nat) :
    matrixRowAccepted tra s1 ali i = matrixRowAccepted tra s2 ali i := by
  rw [matrixRowAccepted, matrixRowAccepted]
  by_cases h : alDof ali i < 0
  · rw [if_pos h, if_pos h]
  · simp [h]

theorem nonSymWriteAt_surface_halved (f : MatrixFormData) (bw : Option (Nat → Nat → ℚ))
    (value : Nat → Nat → ℚ) (ali alj : List ALItem) (i j : Nat) :
    nonSymWriteAt true f bw value ali alj i j
      = Option.map halveWrite (nonSymWriteAt false f bw value ali alj i j) := by
  rw [nonSymWriteAt, nonSymWriteAt]
  by_cases h1 : alDof alj j ≥ 0
  · rw [if_pos h1, if_pos h1]
    by_cases h2 : |alCoef alj j| < negligible
    · rw [if_pos h2, if_pos h2]
      rfl
    · rw [if_neg h2, if_neg h2]
      show some (WriteOp.single i j
            (1/2 * block_scaling_coeff bw f * value i j * f.scaling_factor
              * alCoef alj j * alCoef ali i))
          = some (WriteOp.single i j
            (1/2 * (block_scaling_coeff bw f * value i j * f.scaling_factor
              * alCoef alj j * alCoef ali i)))
      refine congrArg some (congrArg (WriteOp.single i j) ?_)
      ring
  · rw [if_neg h1, if_neg h1]
    rfl

theorem matrixFormWrites_nonsym_surface_halved (f : MatrixFormData)
    (bw : Option (Nat → Nat → ℚ)) (value : Nat → Nat → ℚ) (als : Nat → List ALItem)
    (hns : (decide (f.i = f.j) && decide (f.sym = 1)) = false) :
    matrixFormWrites true f bw value als
      = (matrixFormWrites false f bw value als).map halveWrite := by
  simp only [matrixFormWrites, hns, Bool.not_false, if_true]
  rw [List.map_flatMap]
  congr 1
  funext i
  rw [matrixRowAccepted_surface_irrel _ true false]
  by_cases hrow : (!matrixRowAccepted (decide (f.i ≠ f.j) && decide (f.sym ≠ 0)) false (als f.i) i) = true
  · rw [if_pos hrow, if_pos hrow]
    rfl
  · rw [if_neg hrow, if_neg hrow]
    rw [List.map_filterMap]
    apply List.filterMap_congr
    intro j hj
    exact nonSymWriteAt_surface_halved f bw value (als f.i) (als f.j) i j

theorem matrixFormWrites_sym_surface_same (f : MatrixFormData)
    (bw : Option (Nat → Nat → ℚ)) (value : Nat → Nat → ℚ) (als : Nat → List ALItem)
    (hs : (decide (f.i = f.j) && decide (f.sym = 1)) = true) :
    matrixFormWrites true f bw value als = matrixFormWrites false f bw value als := by
  simp only [matrixFormWrites, hs, Bool.not_true, Bool.false_eq_true, if_false]
  congr 1
  funext i
  rw [matrixRowAccepted_surface_irrel _ true false]

theorem vectorFormAddCalls_surface_halved (f : VectorFormData) (value : Nat → ℚ)
    (al : List ALItem) :
    vectorFormAddCalls true f value al
      = (vectorFormAddCalls false f value al).map (fun x => (x.1, 1/2 * x.2)) := by
  rw [vectorFormAddCalls, vectorFormAddCalls, List.map_filterMap]
  apply List.filterMap_congr
  intro i hi
  by_cases h1 : alDof al i < 0
  · rw [if_pos h1, if_pos h1]
    rfl
  · rw [if_neg h1, if_neg h1]
    by_cases h2 : |alCoef al i| < negligible
    · rw [if_pos h2, if_pos h2]
      rfl
    · rw [if_neg h2, if_neg h2]
      show some ((alDof al i, 1/2 * value i * f.scaling_factor * alCoef al i) : Int × ℚ)
          = some (alDof al i, 1/2 * (value i * f.scaling_factor * alCoef al i))
      refine congrArg some (congrArg (Prod.mk (alDof al i)) ?_)
      ring

theorem dgMatrixWrites_shape (f : MatrixFormData) (bw : Option (Nat → Nat → ℚ))
    (value : Nat → Nat → ℚ) (extU extV : List ALItem) :
    ∀ op ∈ dgMatrixWrites f bw value extU extV,
      ∃ i j, op = WriteOp.single i j
        (block_scaling_coeff bw f * (1/2) * (value i j * f.scaling_factor)
          * alCoef extU j * alCoef extV i) := by
  intro op hop
  rw [dgMatrixWrites] at hop
  rcases List.mem_flatMap.mp hop with ⟨i, hi, hin⟩
  by_cases h1 : alDof extV i < 0
  · rw [if_pos h1] at hin
    exact absurd hin (List.not_mem_nil op)
  · rw [if_neg h1] at hin
    rcases List.mem_filterMap.mp hin with ⟨j, hj, hw⟩
    by_cases h2 : alDof extU j ≥ 0
    · rw [if_pos h2] at hw
      exact ⟨i, j, (Option.some.inj hw).symm⟩
    · rw [if_neg h2] at hw
      exact absurd hw (by simp)

theorem dgVectorAddCalls_shape (f : VectorFormData) (value : Nat → ℚ)
    (al : List ALItem) :
    ∀ x ∈ dgVectorAddCalls f value al,
      ∃ i, x = (alDof al i, 1/2 * value i * f.scaling_factor * alCoef al i) := by
  intro x hx
  rw [dgVectorAddCalls] at hx
  rcases List.mem_filterMap.mp hx with ⟨i, hi, hw⟩
  by_cases h1 : alDof al i < 0
  · rw [if_pos h1] at hw
    exact absurd hw (by simp)
  · rw [if_neg h1] at hw
    exact ⟨i, (Option.some.inj hw).symm⟩

/-- C3 (amended, the claim as stated is refuted by C3_half_factor_counterexample):
surface contributions carry the fixed 0.5 factor in every assembly path except
the symmetric branch of assemble_matrix_form.  Precisely: (1) a matrix form
outside the symmetric branch produces on a surface exactly the volume-path
writes with every written value halved; (2) a matrix form in the symmetric
branch (i == j, symmetric tag) produces identical writes on surfaces and
volumes — the 0.5 factor is absent there; (3) a vector surface form's
rhs contributions are the volume ones halved; (4) every DG matrix write and
(5) every DG vector contribution carries the 0.5 factor. -/
theorem C3_half_factor :
    (∀ (f : MatrixFormData) (bw : Option (Nat → Nat → ℚ)) (value : Nat → Nat → ℚ)
        (als : Nat → List ALItem),
      (decide (f.i = f.j) && decide (f.sym = 1)) = false →
      matrixFormWrites true f bw value als
        = (matrixFormWrites false f bw value als).map halveWrite)
    ∧ (∀ (f : MatrixFormData) (bw : Option (Nat → Nat → ℚ)) (value : Nat → Nat → ℚ)
        (als : Nat → List ALItem),
      (decide (f.i = f.j) && decide (f.sym = 1)) = true →
      matrixFormWrites true f bw value als = matrixFormWrites false f bw value als)
    ∧ (∀ (f : VectorFormData) (value : Nat → ℚ) (al : List ALItem),
      vectorFormAddCalls true f value al
        = (vectorFormAddCalls false f value al).map (fun x => (x.1, 1/2 * x.2)))
    ∧ (∀ (f : MatrixFormData) (bw : Option (Nat → Nat → ℚ)) (value : Nat → Nat → ℚ)
        (extU extV : List ALItem), ∀ op ∈ dgMatrixWrites f bw value extU extV,
      ∃ i j, op = WriteOp.single i j
        (block_scaling_coeff bw f * (1/2) * (value i j * f.scaling_factor)
          * alCoef extU j * alCoef extV i))
    ∧ (∀ (f : VectorFormData) (value : Nat → ℚ) (al : List ALItem),
        ∀ x ∈ dgVectorAddCalls f value al,
      ∃ i, x = (alDof al i, 1/2 * value i * f.scaling_factor * alCoef al i)) :=
  ⟨fun f bw value als h => matrixFormWrites_nonsym_surface_halved f bw value als h,
    fun f bw value als h => matrixFormWrites_sym_surface_same f bw value als h,
    fun f value al => vectorFormAddCalls_surface_halved f value al,
    fun f bw value extU extV => dgMatrixWrites_shape f bw value extU extV,
    fun f value al => dgVectorAddCalls_shape f value al⟩

/-- C3 witness: an unsymmetric form at (0, 1) with unit data has its surface
writes equal to the halved volume writes. -/
theorem C3_half_factor_witness :
    ((decide ((0 : Nat) = 1) && decide ((0 : Int) = 1)) = false)
    ∧ matrixFormWrites true { i := 0, j := 1, sym := 0, scaling_factor := 1, areas := [Area.any] }
        none (fun _ _ => 1)
        (fun k => if k = 0 then [{ dof := 0, coef := 1 }] else [{ dof := 1, coef := 1 }])
      = (matrixFormWrites false { i := 0, j := 1, sym := 0, scaling_factor := 1, areas := [Area.any] }
          none (fun _ _ => 1)
          (fun k => if k = 0 then [{ dof := 0, coef := 1 }] else [{ dof := 1, coef := 1 }])).map halveWrite :=
  ⟨by decide,
    C3_half_factor.1 { i := 0, j := 1, sym := 0, scaling_factor := 1, areas := [Area.any] }
      none (fun _ _ => 1)
      (fun k => if k = 0 then [{ dof := 0, coef := 1 }] else [{ dof := 1, coef := 1 }])
      (by decide)⟩

/-- C3 counterexample: a surface matrix form with i == j and the symmetric tag
(the spec's data model gives every form a symmetry tag) produces the local
entry 1 — block scaling, form value, scaling factor and both coefficients all
being 1 — with no 0.5 factor, refuting the claim that every surface-form
contribution is multiplied by the fixed factor 0.5. -/
theorem C3_half_factor_counterexample :
    matrixFormWrites true { i := 0, j := 0, sym := 1, scaling_factor := 1, areas := [Area.any] }
        none (fun _ _ => 1) (fun _ => [{ dof := 0, coef := 1 }])
      = [WriteOp.pair 0 0 1]
    ∧ (1 : ℚ) ≠ 1/2 * 1 := by
  constructor
  · have hw : symWriteAt { i := 0, j := 0, sym := 1, scaling_factor := 1, areas := [Area.any] } none
        (fun _ _ => (1 : ℚ)) [{ dof := 0, coef := 1 }] [{ dof := 0, coef := 1 }] 0 0
        = some (WriteOp.pair 0 0 1) := by
      norm_num [symWriteAt, alDof, alCoef, block_scaling_coeff, negligible]
    norm_num [matrixFormWrites, matrixRowAccepted, alDof, alCoef, negligible,
      List.range_succ, List.filterMap_cons, hw]
  · norm_num
